import Mathlib

/-!
Shallow embedding of `src/index.ts` of the windows-message library.

The library exchanges `ChannelMsg` envelopes between browser window contexts
through `postMessage` / `message` events.  All protocol logic lives in three
event-listener callbacks, which we embed as pure dispatch functions:

* `handleMessageHandler`  — the `messageHandler` registered by `handle`;
* `requestMessageHandler` — the per-call `messageHandler` registered by `request`;
* the setup listener of `processSetupMsg`, whose acceptance condition is
  `isValidSetup` and whose effect on the channel state is `deliverSetup`.

JavaScript `undefined` slots are modelled with `Option`; the JS truthiness of
`a || b` on strings is `jsOrString`.  Window contexts are an abstract type
parameter `κ`; an outbound `postMessage` is recorded as a pair
`(target context, envelope)`.  Handler invocation results (fulfilment or
rejection of the returned promise) are modelled with `Except JSError`.
-/

namespace WindowsMessage

/-- The `error` field of a `ChannelMsg`: `{ msg: string; stack: string }`. -/
structure ErrDetail where
  msg : String
  stack : String
deriving Repr, DecidableEq

/-- A JavaScript rejection reason as consumed by `handle`'s `.catch`:
`err.message` is read directly, `err.stack` may be `undefined`
(the code writes `err.stack || ""`). -/
structure JSError where
  message : String
  stack : Option String
deriving Repr, DecidableEq

/-- The wire envelope `ChannelMsg<T>` of `src/index.ts`.  `isSetup?` is an
optional boolean, absent meaning falsy, so it is a `Bool` defaulting to
`false`; `data` is `Option α` with `none` standing for `undefined`. -/
structure ChannelMsg (α : Type) where
  success : Bool
  channel : String
  isSetup : Bool := false
  data : Option α := none
  error : Option ErrDetail := none
deriving Repr, DecidableEq

/-- A `MessageEvent` as seen by the listeners: sender `origin`, the payload
`event.data` (already cast to `ChannelMsg`), and the optional `event.source`
handle back to the sender's context. -/
structure MessageEvent (α : Type) (κ : Type) where
  origin : String
  data : ChannelMsg α
  source : Option κ
deriving Repr, DecidableEq

/-- JavaScript `a || b` where `a` is a possibly-`undefined` string:
both `undefined` and `""` are falsy. -/
def jsOrString (a : Option String) (b : String) : String :=
  match a with
  | none => b
  | some s => if s = "" then b else s

/-- `const requestChannel = "request:/" + channel` in `createChannel`. -/
def requestChannelOf (channel : String) : String := "request:/" ++ channel

/-- `const responseChannel = "response:/" + channel` in `createChannel`. -/
def responseChannelOf (channel : String) : String := "response:/" ++ channel

/-- The request envelope posted by `request`:
`{ channel: requestChannel, success: true, data: message }`. -/
def mkRequestMsg (requestChannel : String) (m : Option α) : ChannelMsg α :=
  { channel := requestChannel, success := true, data := m }

/-- The success response posted by `handle`'s `.then` branch:
`{ channel: responseChannel, success: true, data: res }`. -/
def mkSuccessResponse (responseChannel : String) (res : Option β) : ChannelMsg β :=
  { channel := responseChannel, success := true, data := res }

/-- The error response posted by `handle`'s `.catch` branch:
`{ channel: responseChannel, success: false, data: undefined,
   error: { msg: err.message, stack: err.stack || "" } }`. -/
def mkErrorResponse (responseChannel : String) (err : JSError) : ChannelMsg β :=
  { channel := responseChannel, success := false, data := none,
    error := some { msg := err.message, stack := err.stack.getD "" } }

/-- Outcome of delivering one event to the responder's `messageHandler`:
either the event is discarded, or the callback is invoked with
`channelMsg.data` and `event.source?.postMessage(...)` posts an envelope to
the sender's context when `event.source` is present (`none` post when absent). -/
inductive ResponderAction (α β κ : Type) where
  | ignore
  | invoke (arg : Option α) (post : Option (κ × ChannelMsg β))
deriving Repr, DecidableEq

/-- The `messageHandler` installed by `handle`.  It discards events whose
origin differs from `window.location.origin`, whose channel is not the
request channel, or which are setup announcements; otherwise it invokes the
callback and posts a success or error response to `event.source` (a no-op
when the source is absent, because of the `?.` call). -/
def handleMessageHandler (callback : Option α → Except JSError (Option β))
    (requestChannel responseChannel localOrigin : String)
    (event : MessageEvent α κ) : ResponderAction α β κ :=
  if event.origin ≠ localOrigin then .ignore
  else if event.data.channel ≠ requestChannel then .ignore
  else if event.data.isSetup then .ignore
  else
    match callback event.data.data with
    | .ok res =>
        .invoke event.data.data
          (event.source.map fun s => (s, mkSuccessResponse responseChannel res))
    | .error err =>
        .invoke event.data.data
          (event.source.map fun s => (s, mkErrorResponse responseChannel err))

/-- Outcome of delivering one event to the per-call `messageHandler` of
`request`: either the event is discarded and the listener stays (`keep`),
or the listener removes itself and settles the promise (`settle`) —
`resolve(channelMsg.data)` on success, or
`reject(channelMsg.error?.msg || "Unknown error")` on failure. -/
inductive RequesterAction (β : Type) where
  | keep
  | settle (outcome : Except String (Option β))
deriving Repr

/-- The per-call `messageHandler` installed by `request`.  It discards events
whose origin differs from `window.location.origin` or whose channel is not
the response channel; otherwise it resolves with `channelMsg.data` when
`success` is true and rejects with `channelMsg.error?.msg || "Unknown error"`
otherwise, removing itself in both cases. -/
def requestMessageHandler (responseChannel localOrigin : String)
    (event : MessageEvent β κ) : RequesterAction β :=
  if event.origin ≠ localOrigin then .keep
  else if event.data.channel ≠ responseChannel then .keep
  else if event.data.success then .settle (.ok event.data.data)
  else .settle (.error (jsOrString (event.data.error.map ErrDetail.msg) "Unknown error"))

/-- The acceptance condition of the `onMessage` listener inside
`processSetupMsg`: same origin, request channel, and a truthy `isSetup`. -/
def isValidSetup (requestChannel localOrigin : String)
    (event : MessageEvent γ κ) : Bool :=
  event.origin == localOrigin && event.data.channel == requestChannel
    && event.data.isSetup

/-- Requester-side state of one channel handle created by `createChannel`:
the shared `isSetup` flag, whether the factory's own `processSetupMsg`
listener is still registered, and the `request` calls currently blocked in
`waitChildWindowSetup` (each holding its payload and target context, and each
owning its own `processSetupMsg` listener). -/
structure SetupState (α κ : Type) where
  isSetup : Bool
  factoryListener : Bool
  waiters : List (Option α × κ)
deriving Repr, DecidableEq

/-- The state allocated by `createChannel`: `let isSetup = false` and one
`processSetupMsg()` listener started immediately, no waiters. -/
def channelInit (α κ : Type) : SetupState α κ :=
  { isSetup := false, factoryListener := true, waiters := [] }

/-- Delivery of one message event to every active setup listener of the
channel.  Each active listener runs `processSetupMsg`'s `onMessage`: on a
valid setup announcement it sets the shared `isSetup` flag, removes itself
and resolves, so every blocked `request` call proceeds to post its request
envelope; on anything else it does nothing.  Returns the new state and the
list of request envelopes posted by the unblocked calls. -/
def deliverSetup (requestChannel localOrigin : String) (s : SetupState α κ)
    (event : MessageEvent γ κ) : SetupState α κ × List (κ × ChannelMsg α) :=
  if isValidSetup requestChannel localOrigin event then
    ({ isSetup := s.isSetup || s.factoryListener || !s.waiters.isEmpty,
       factoryListener := false, waiters := [] },
     s.waiters.map fun mt => (mt.2, mkRequestMsg requestChannel mt.1))
  else (s, [])

/-- The head of one `request(message, windowObj)` call:
`await waitChildWindowSetup()` returns at once when `isSetup` is already
true, and the call goes on to post its request envelope to `windowObj`;
otherwise the call blocks, registering a fresh `processSetupMsg` listener
(recorded as a waiter), and posts nothing yet. -/
def startRequest (requestChannel : String) (s : SetupState α κ)
    (m : Option α) (t : κ) : SetupState α κ × List (κ × ChannelMsg α) :=
  if s.isSetup then (s, [(t, mkRequestMsg requestChannel m)])
  else ({ s with waiters := s.waiters ++ [(m, t)] }, [])

/-- Several `request` calls issued in sequence (head phase only), collecting
every envelope posted immediately. -/
def startRequests (requestChannel : String) (s : SetupState α κ)
    (calls : List (Option α × κ)) : SetupState α κ × List (κ × ChannelMsg α) :=
  match calls with
  | [] => (s, [])
  | c :: rest =>
    let r1 := startRequest requestChannel s c.1 c.2
    let r2 := startRequests requestChannel r1.1 rest
    (r2.1, r1.2 ++ r2.2)

/-- Responder-side event loop after `handle(callback)` has registered its
listener.  The flag records whether the listener is registered; the body of
`handle` contains no `removeEventListener`, so each step leaves the flag
untouched.  Returns the final flag and the action taken for each event. -/
def processEvents (callback : Option α → Except JSError (Option β))
    (requestChannel responseChannel localOrigin : String) (active : Bool)
    (events : List (MessageEvent α κ)) :
    Bool × List (ResponderAction α β κ) :=
  match events with
  | [] => (active, [])
  | e :: rest =>
    let a := if active then
        handleMessageHandler callback requestChannel responseChannel localOrigin e
      else ResponderAction.ignore
    let r := processEvents callback requestChannel responseChannel localOrigin active rest
    (r.1, a :: r.2)

/-- A well-formed inbound request envelope for the responder: same origin,
request channel, not a setup announcement, `success` true, a real payload,
and a sender handle attached. -/
def validRequestEvent (requestChannel localOrigin : String)
    (e : MessageEvent α κ) : Bool :=
  e.origin == localOrigin && e.data.channel == requestChannel
    && !e.data.isSetup && e.data.success && e.data.data.isSome && e.source.isSome

/-- Delivery of one event to every pending `request` listener on the window.
The listeners are identified by registration order; the event is dispatched
to each listener registered before delivery (a listener removing itself
during dispatch does not unregister the others), so every listener that
matches settles with the same outcome and removes itself. -/
def deliverToPending (responseChannel localOrigin : String) (pending : List Nat)
    (event : MessageEvent β κ) :
    List Nat × List (Nat × Except String (Option β)) :=
  match requestMessageHandler responseChannel localOrigin event with
  | .keep => (pending, [])
  | .settle o => ([], pending.map fun id => (id, o))

/-- The complete single-request round trip on channel `channel`, with both
contexts at the same `origin`: the requester posts its request envelope, the
envelope is delivered to the responder's `messageHandler` (with the
requester's window as `event.source`), the response the responder posts back
is delivered to the requester's per-call `messageHandler`, and the resulting
requester action is returned.  `keep` if the responder posted nothing. -/
def roundTrip (callback : Option α → Except JSError (Option β))
    (channel : String) (payload : Option α) (origin : String)
    (requesterWin responderWin : κ) : RequesterAction β :=
  let rc := requestChannelOf channel
  let sc := responseChannelOf channel
  let reqEvent : MessageEvent α κ :=
    { origin := origin, data := mkRequestMsg rc payload, source := some requesterWin }
  match handleMessageHandler callback rc sc origin reqEvent with
  | .invoke _ (some p) =>
      requestMessageHandler sc origin
        { origin := origin, data := p.2, source := some responderWin }
  | _ => .keep

/-- The default parameter of the exported `request` closure:
`(message, windowObj: Window = window)` — an omitted target falls back to
the requester's own `window`. -/
def requestPostTarget (targetArg : Option κ) (selfWindow : κ) : κ :=
  targetArg.getD selfWindow

/-- The `windowObj.postMessage(msg, "*")` step of `request`: the envelope and
the context it is posted to, for a given optional target argument. -/
def requestPostedEnvelope (channel : String) (message : Option α)
    (targetArg : Option κ) (selfWindow : κ) : κ × ChannelMsg α :=
  (requestPostTarget targetArg selfWindow,
   mkRequestMsg (requestChannelOf channel) message)

/-- C1: if the registered handler fulfils with `r` on payload `payload`, the
single round trip on the channel settles the requester's promise by resolving
it with exactly `r`. -/
theorem roundTrip_resolves_with_handler_result {α β κ : Type}
    (callback : Option α → Except JSError (Option β))
    (channel : String) (payload : Option α) (origin : String)
    (wr wc : κ) (r : Option β)
    (h : callback payload = .ok r) :
    roundTrip callback channel payload origin wr wc
      = .settle (.ok r) := by
  simp [roundTrip, handleMessageHandler, requestMessageHandler, mkRequestMsg,
    mkSuccessResponse, h]

/-- Witness for C1 at a concrete channel, payload and handler. -/
theorem roundTrip_resolves_with_handler_result_witness :
    roundTrip (κ := Unit) (fun q : Option Nat => Except.ok (q.map (· + 1)))
      "/greeting" (some 41) "https://example.com" () ()
      = .settle (.ok (some 42)) :=
  roundTrip_resolves_with_handler_result _ _ _ _ _ _ _ rfl

/-- C2 (amended): if the registered handler rejects with an error whose
message `M` is nonempty, the round trip rejects the requester's promise with
exactly the string `M`.  (For `M = ""` the requester's
`error?.msg || "Unknown error"` fallback fires instead, see the
counterexample below.) -/
theorem roundTrip_rejects_with_handler_message {α β κ : Type}
    (callback : Option α → Except JSError (Option β))
    (channel : String) (payload : Option α) (origin : String)
    (wr wc : κ) (err : JSError)
    (h : callback payload = .error err) (hm : err.message ≠ "") :
    roundTrip callback channel payload origin wr wc
      = .settle (.error err.message) := by
  simp [roundTrip, handleMessageHandler, requestMessageHandler, mkRequestMsg,
    mkErrorResponse, jsOrString, h, hm]

/-- Witness for the amended C2 at a concrete channel and handler. -/
theorem roundTrip_rejects_with_handler_message_witness :
    roundTrip (κ := Unit)
      (fun _ : Option Nat =>
        (Except.error { message := "bad input", stack := some "t" } : Except JSError (Option Nat)))
      "/greeting" (some 1) "https://example.com" () ()
      = .settle (.error "bad input") :=
  roundTrip_rejects_with_handler_message _ _ _ _ _ _ _ rfl (by decide)

/-- C2 counterexample: a handler that rejects with an error whose message is
the string `""` does not make the requester reject with `""`; the requester
rejects with the fallback string `"Unknown error"`, because the JavaScript
`channelMsg.error?.msg || "Unknown error"` treats the empty string as falsy. -/
theorem roundTrip_empty_message_not_propagated :
    roundTrip (κ := Unit)
      (fun _ : Option Nat =>
        (Except.error { message := "", stack := none } : Except JSError (Option Nat)))
      "/greeting" (some 1) "https://example.com" () ()
      = .settle (.error "Unknown error")
    ∧ ("Unknown error" : String) ≠ "" := by
  exact ⟨rfl, by decide⟩

/-- C3: an inbound event whose declared sender origin differs from the local
origin is discarded everywhere: the responder's `messageHandler` never
invokes the callback and posts nothing, a pending `request` listener neither
resolves nor rejects, the channel's setup state is unchanged with no envelope
posted, and no pending listener is removed or settled. -/
theorem origin_mismatch_changes_nothing {α β γ δ κ : Type}
    (callback : Option α → Except JSError (Option β))
    (rc sc lo : String)
    (e1 : MessageEvent α κ) (e2 : MessageEvent β κ)
    (e3 : MessageEvent γ κ)
    (s : SetupState δ κ) (pending : List Nat)
    (h1 : e1.origin ≠ lo) (h2 : e2.origin ≠ lo) (h3 : e3.origin ≠ lo) :
    handleMessageHandler callback rc sc lo e1 = .ignore
    ∧ requestMessageHandler sc lo e2 = .keep
    ∧ deliverSetup rc lo s e3 = (s, [])
    ∧ deliverToPending sc lo pending e2 = (pending, []) := by
  refine ⟨?_, ?_, ?_, ?_⟩
  · simp [handleMessageHandler, h1]
  · simp [requestMessageHandler, h2]
  · simp [deliverSetup, isValidSetup, h3]
  · simp [deliverToPending, requestMessageHandler, h2]

/-- Witness for C3 at a concrete foreign-origin event. -/
theorem origin_mismatch_changes_nothing_witness :
    handleMessageHandler (β := Nat) (κ := Unit)
      (fun q : Option Nat => Except.ok q) "request://g" "response://g" "https://good.example"
      { origin := "https://evil.example",
        data := { success := true, channel := "request://g", data := some 7 },
        source := some () }
      = .ignore :=
  (origin_mismatch_changes_nothing (γ := Nat) (δ := Nat) _ _ _ _
      _
      { origin := "https://evil.example",
        data := { success := true, channel := "response://g", data := (none : Option Nat) },
        source := some () }
      { origin := "https://evil.example",
        data := { success := true, channel := "request://g", data := (some 7 : Option Nat) },
        source := some () }
      (channelInit Nat Unit) []
      (by decide) (by decide) (by decide)).1

/-- C4: lifecycle of the setup flag — it starts false at `createChannel`, is
turned true exactly by the delivery of a same-origin setup announcement on
the request channel while some setup listener is active, never returns to
false once true, and a `request` call that starts while the flag is true
proceeds immediately, posting its envelope without registering a waiter. -/
theorem setup_flag_lifecycle {α γ κ : Type} (rc lo : String) :
    (channelInit α κ).isSetup = false
    ∧ (∀ (s : SetupState α κ) (e : MessageEvent γ κ),
        s.isSetup = true → (deliverSetup rc lo s e).1.isSetup = true)
    ∧ (∀ (s : SetupState α κ) (e : MessageEvent γ κ),
        s.isSetup = false → (deliverSetup rc lo s e).1.isSetup = true →
        isValidSetup rc lo e = true)
    ∧ (∀ (s : SetupState α κ) (m : Option α) (t : κ),
        s.isSetup = true →
        startRequest rc s m t = (s, [(t, mkRequestMsg rc m)])) := by
  refine ⟨rfl, ?_, ?_, ?_⟩
  · intro s e hs
    by_cases hv : isValidSetup rc lo e = true
    · simp [deliverSetup, hv, hs]
    · simp [deliverSetup, hv, hs]
  · intro s e hs hgoal
    by_cases hv : isValidSetup rc lo e = true
    · exact hv
    · simp [deliverSetup, hv, hs] at hgoal
  · intro s m t hs
    simp [startRequest, hs]

/-- Witness for C4: a true flag survives an arbitrary delivery, at concrete
state and event. -/
theorem setup_flag_lifecycle_witness :
    (deliverSetup (α := Nat) (γ := Nat) (κ := Unit) "request://g" "o"
      { isSetup := true, factoryListener := false, waiters := [] }
      { origin := "x", data := { success := true, channel := "c", data := none },
        source := none }).1.isSetup = true :=
  (setup_flag_lifecycle "request://g" "o").2.1 _ _ rfl

/-- Helper: while the setup flag is false, a sequence of `request` calls
posts nothing and queues every call as a waiter, in order. -/
theorem startRequests_not_setup {α κ : Type} (rc : String)
    (calls : List (Option α × κ)) (s : SetupState α κ)
    (h : s.isSetup = false) :
    startRequests rc s calls = ({ s with waiters := s.waiters ++ calls }, []) := by
  induction calls generalizing s with
  | nil => simp [startRequests]
  | cons c rest ih =>
    simp only [startRequests, startRequest, h, Bool.false_eq_true, if_false]
    rw [ih { isSetup := false, factoryListener := s.factoryListener,
             waiters := s.waiters ++ [(c.1, c.2)] } rfl]
    simp [h]

/-- C5: `request` calls issued while the setup flag is still false all stay
pending and post no envelope; any delivery that is not a valid setup
announcement leaves them pending; the delivery of one same-origin setup
announcement unblocks all of them at once, and each unblocked call posts its
request envelope. -/
theorem presetup_requests_unblocked_together {α γ κ : Type}
    (rc lo : String) (calls : List (Option α × κ))
    (e e' : MessageEvent γ κ)
    (hv : isValidSetup rc lo e = true) (hnv : isValidSetup rc lo e' = false) :
    startRequests rc (channelInit α κ) calls
      = ({ isSetup := false, factoryListener := true, waiters := calls }, [])
    ∧ deliverSetup rc lo
        { isSetup := false, factoryListener := true, waiters := calls } e'
      = ({ isSetup := false, factoryListener := true, waiters := calls }, [])
    ∧ deliverSetup rc lo
        { isSetup := false, factoryListener := true, waiters := calls } e
      = ({ isSetup := true, factoryListener := false, waiters := [] },
         calls.map fun mt => (mt.2, mkRequestMsg rc mt.1)) := by
  refine ⟨?_, ?_, ?_⟩
  · rw [startRequests_not_setup rc calls (channelInit α κ) rfl]
    rfl
  · simp [deliverSetup, hnv]
  · simp [deliverSetup, hv]

/-- Witness for C5: two concrete pre-setup calls, both unblocked and posting
their envelopes upon one concrete setup announcement. -/
theorem presetup_requests_unblocked_together_witness :
    deliverSetup (γ := Nat) "request://g" "o"
      { isSetup := false, factoryListener := true,
        waiters := [(some 1, ()), (some 2, ())] }
      { origin := "o",
        data := { success := true, channel := "request://g", isSetup := true,
                  data := none },
        source := none }
      = ({ isSetup := true, factoryListener := false, waiters := [] },
         [((), mkRequestMsg "request://g" (some 1)),
          ((), mkRequestMsg "request://g" (some 2))]) :=
  (presetup_requests_unblocked_together "request://g" "o"
      [(some 1, ()), (some 2, ())]
      { origin := "o",
        data := { success := true, channel := "request://g", isSetup := true,
                  data := (none : Option Nat) },
        source := (none : Option Unit) }
      { origin := "o",
        data := { success := true, channel := "request://g",
                  data := (none : Option Nat) },
        source := (none : Option Unit) }
      (by decide) (by decide)).2.2

/-- Helper: the responder's event loop with its listener registered neither
unregisters the listener nor changes how events are dispatched — the actions
are exactly the pointwise `handleMessageHandler` results. -/
theorem processEvents_listener_stays {α β κ : Type}
    (callback : Option α → Except JSError (Option β))
    (rc sc lo : String) (events : List (MessageEvent α κ)) :
    processEvents callback rc sc lo true events
      = (true, events.map (handleMessageHandler callback rc sc lo)) := by
  induction events with
  | nil => rfl
  | cons e rest ih => simp [processEvents, ih]

/-- Helper: a well-formed inbound request envelope makes the responder invoke
the callback on its payload and post a response to the sender's context. -/
theorem handleMessageHandler_valid_invoke {α β κ : Type}
    (callback : Option α → Except JSError (Option β))
    (rc sc lo : String) (e : MessageEvent α κ)
    (h : validRequestEvent rc lo e = true) :
    ∃ c post, handleMessageHandler callback rc sc lo e
      = ResponderAction.invoke e.data.data (some (c, post)) := by
  simp only [validRequestEvent, Bool.and_eq_true, beq_iff_eq, Bool.not_eq_true',
    Option.isSome_iff_exists] at h
  obtain ⟨⟨⟨⟨⟨ho, hc⟩, hsetup⟩, hsucc⟩, d, hd⟩, src, hsrc⟩ := h
  cases hcb : callback e.data.data with
  | ok res =>
    exact ⟨src, mkSuccessResponse sc res,
      by simp [handleMessageHandler, ho, hc, hsetup, hcb, hsrc]⟩
  | error err =>
    exact ⟨src, mkErrorResponse sc err,
      by simp [handleMessageHandler, ho, hc, hsetup, hcb, hsrc]⟩

/-- C6: after one `handle(callback)` registration the listener flag stays set
through any sequence of deliveries, each delivered event is dispatched by the
same `messageHandler` with no re-registration, and every well-formed
same-origin request envelope in the sequence invokes the callback and posts a
response to its sender. -/
theorem responder_subscription_never_removed {α β κ : Type}
    (callback : Option α → Except JSError (Option β))
    (rc sc lo : String) (events : List (MessageEvent α κ)) :
    (processEvents callback rc sc lo true events).1 = true
    ∧ (processEvents callback rc sc lo true events).2
        = events.map (handleMessageHandler callback rc sc lo)
    ∧ ∀ e ∈ events, validRequestEvent rc lo e = true →
        ∃ c post, handleMessageHandler callback rc sc lo e
          = ResponderAction.invoke e.data.data (some (c, post)) := by
  refine ⟨?_, ?_, ?_⟩
  · rw [processEvents_listener_stays]
  · rw [processEvents_listener_stays]
  · intro e _ he
    exact handleMessageHandler_valid_invoke callback rc sc lo e he

/-- Witness for C6: a concrete two-event sequence in which the second valid
request is still served. -/
theorem responder_subscription_never_removed_witness :
    ∃ c post,
      handleMessageHandler (κ := Unit)
        (fun q : Option Nat => Except.ok q) "request://g" "response://g" "o"
        { origin := "o",
          data := { success := true, channel := "request://g", data := some 5 },
          source := some () }
        = ResponderAction.invoke (some 5) (some (c, post)) :=
  (responder_subscription_never_removed
      (fun q : Option Nat => Except.ok q) "request://g" "response://g" "o"
      [{ origin := "o",
         data := { success := true, channel := "request://g", data := some 4 },
         source := some () },
       { origin := "o",
         data := { success := true, channel := "request://g", data := some 5 },
         source := some () }]).2.2
    _ (by simp) (by decide)

/-- C7: a `request` call that omits the target context argument posts its
request envelope to the requester's own window (the default parameter
`windowObj: Window = window` of the exported `request` closure). -/
theorem request_default_target_is_own_window {α κ : Type}
    (channel : String) (m : Option α) (w : κ) :
    requestPostedEnvelope channel m none w
      = (w, mkRequestMsg (requestChannelOf channel) m) := rfl

/-- C8: a same-origin error envelope on the response channel whose error
detail lacks a message (no `error` field, or an empty `msg`) makes the
pending `request` reject with exactly the string `"Unknown error"`. -/
theorem missing_error_message_rejects_unknown {β κ : Type}
    (sc lo : String) (e : MessageEvent β κ)
    (ho : e.origin = lo) (hc : e.data.channel = sc)
    (hs : e.data.success = false)
    (he : e.data.error.map ErrDetail.msg = none
          ∨ e.data.error.map ErrDetail.msg = some "") :
    requestMessageHandler sc lo e
      = .settle (.error "Unknown error") := by
  rcases he with he | he <;>
    simp [requestMessageHandler, jsOrString, ho, hc, hs, he]

/-- Witness for C8: a concrete error envelope with no error detail at all. -/
theorem missing_error_message_rejects_unknown_witness :
    requestMessageHandler (κ := Unit) "response://g" "o"
      { origin := "o",
        data := { success := false, channel := "response://g",
                  data := (none : Option Nat) },
        source := some () }
      = .settle (.error "Unknown error") :=
  missing_error_message_rejects_unknown _ _ _ rfl rfl rfl (Or.inl rfl)

/-- C9: with two `request` calls pending on the same channel (listeners `a`
then `b` in registration order), a single same-origin success response on the
response channel settles the second call's listener with that very response —
correlation is by topic alone, with no per-request identifier. -/
theorem response_consumed_by_other_pending_request {β κ : Type}
    (sc lo : String) (a b : Nat) (d : Option β) (src : Option κ) :
    deliverToPending sc lo [a, b]
      { origin := lo, data := mkSuccessResponse sc d, source := src }
      = ([], [(a, .ok d), (b, .ok d)]) := by
  simp [deliverToPending, requestMessageHandler, mkSuccessResponse]

/-- C10: a well-formed same-origin request envelope whose `event.source` is
absent still invokes the callback, but the responder posts no response at all
— the optional-chaining `event.source?.postMessage` is a no-op — whatever the
callback does, so the requester's promise is never settled by this exchange. -/
theorem absent_source_invokes_without_reply {α β κ : Type}
    (callback : Option α → Except JSError (Option β))
    (rc sc lo : String) (e : MessageEvent α κ)
    (ho : e.origin = lo) (hc : e.data.channel = rc)
    (hsetup : e.data.isSetup = false) (hsrc : e.source = none) :
    handleMessageHandler callback rc sc lo e
      = ResponderAction.invoke e.data.data none := by
  cases hcb : callback e.data.data with
  | ok res => simp [handleMessageHandler, ho, hc, hsetup, hcb, hsrc]
  | error err => simp [handleMessageHandler, ho, hc, hsetup, hcb, hsrc]

/-- Witness for C10 at a concrete source-less request envelope. -/
theorem absent_source_invokes_without_reply_witness :
    handleMessageHandler (κ := Unit)
      (fun q : Option Nat => Except.ok q) "request://g" "response://g" "o"
      { origin := "o",
        data := { success := true, channel := "request://g", data := some 9 },
        source := none }
      = ResponderAction.invoke (some 9) none :=
  absent_source_invokes_without_reply _ _ _ _ _ rfl rfl rfl rfl

end WindowsMessage
